import Mathlib

/-!
Shallow embedding of the Geidea payment lifecycle backend
(`app/services/geidea_manager.py`, `app/routers/geidea_router.py`,
`app/schemas.py`, `app/models.py`) and proofs about it.

Modelling conventions:
* Monetary amounts are modelled in integer cents (`Nat`): the store's
  `Numeric(10, 2)` column holds exactly two decimal digits, so every stored
  amount is a whole number of cents.  Lean has no model of Python `float`
  semantics; the two-decimal formatting `f"{amount:.2f}"` is embedded as the
  exact rendering of a cents value.
* The database is a list of `Payment` rows; `commit` points in the Python
  code correspond to returning the updated list, and `rollback` to returning
  the list as of the last commit.  Every mutation between two commits in the
  source is reflected between the corresponding two states here.
* Python `dict.get` is `Option`; Python truthiness of a string (`if not s`)
  is the test `s = ""` on the `getD ""` value, and `a or b or c` on strings
  picks the first non-empty value.
* `fastapi.HTTPException` is the explicit error value `HErr`; `raise` is
  `Except.error`.  Starlette's `HTTPException.__str__` renders as
  `f"{status_code}: {detail}"`, embedded as `HErr.toText`.
-/

namespace Geidea

/-- Internal payment status strings stored in `Payment.status`
(`models.py`: PENDING / SUCCESS / FAILED / CANCELLED, plus UNKNOWN written
by `handle_webhook`). -/
inductive PStatus where
  | PENDING
  | SUCCESS
  | FAILED
  | CANCELLED
  | UNKNOWN
deriving DecidableEq, Repr

/-- One row of the `payments` table (`models.py`, class `Payment`).
`created_at` and `card_token` are never read or written by the code under
verification and are omitted. -/
structure Payment where
  id : Nat
  user_id : Nat
  amountCents : Nat
  currency : String
  merchant_reference_id : String
  geidea_order_id : Option String := none
  geidea_session_id : Option String := none
  order_payload : Option String := none
  shipping_address_payload : Option String := none
  status : PStatus := .PENDING
deriving DecidableEq, Repr

/-- The persistent store: the committed rows of the `payments` table. -/
abbrev DB := List Payment

/-- A `fastapi.HTTPException(status_code, detail)` value. -/
structure HErr where
  status : Nat
  detail : String
deriving DecidableEq, Repr

/-- Rendering of `str(e)` for a starlette `HTTPException`: `f"{status_code}: {detail}"`. -/
def HErr.toText (e : HErr) : String :=
  toString e.status ++ ": " ++ e.detail

/-- The `order` object of a Geidea webhook payload
(`handle_webhook` reads `merchantReferenceId`, `orderId`, `status`). -/
structure OrderData where
  merchantReferenceId : Option String := none
  orderId : Option String := none
  status : Option String := none
deriving DecidableEq, Repr

/-- A parsed webhook JSON body; `handle_webhook` only reads `payload.get("order")`. -/
structure WebhookPayload where
  order : Option OrderData := none
deriving DecidableEq, Repr

/-- Python `str.lower()` on one character, for the ASCII range (the webhook
status keywords it is compared against are ASCII). -/
def pyLowerChar (c : Char) : Char :=
  if 65 ≤ c.toNat ∧ c.toNat ≤ 90 then Char.ofNat (c.toNat + 32) else c

/-- Python `str.lower()`: characterwise lowercasing. -/
def pyLower (s : String) : String := String.mk (s.data.map pyLowerChar)

/-- Python `str.upper()` on one character, for the ASCII range (currency
codes). -/
def pyUpperChar (c : Char) : Char :=
  if 97 ≤ c.toNat ∧ c.toNat ≤ 122 then Char.ofNat (c.toNat - 32) else c

/-- Python `str.upper()`: characterwise uppercasing. -/
def pyUpper (s : String) : String := String.mk (s.data.map pyUpperChar)

/-- The status-determination chain of `handle_webhook` (geidea_manager.py
lines 205-214): `if status and status.lower() == ... : payment.status = ...`;
the `orderId` is attached only in the success branch.  Python truthiness of
the status string is the `st ≠ ""` conjunct on the `getD ""` value. -/
def webhookStatusUpdate (od : OrderData) (payment : Payment) : Payment :=
  let st := od.status.getD ""
  if st ≠ "" ∧ pyLower st = "success" then
    { payment with status := .SUCCESS, geidea_order_id := od.orderId }
  else if st ≠ "" ∧ (pyLower st = "failed" ∨ pyLower st = "declined") then
    { payment with status := .FAILED }
  else if st ≠ "" ∧ (pyLower st = "cancelled" ∨ pyLower st = "canceled") then
    { payment with status := .CANCELLED }
  else
    { payment with status := .UNKNOWN }

/-- Embeds `GeideaManager.handle_webhook` (geidea_manager.py lines 181-221).
Returns the committed store after the call together with the error message
printed to the log when the payload was rejected (`None` on a completed
reconciliation).  All exceptions are caught inside the function: the rejected
paths roll back (the store is unchanged because nothing was mutated before
the raise), print, and return.  A present-but-empty `order` dict is falsy in
Python and is rejected like a missing one; in this embedding such a payload
falls through to the equally rejecting empty-`merchantReferenceId` check,
with the same observable outcome (store unchanged, error logged). -/
def handle_webhook (payload : WebhookPayload) (db : DB) : DB × Option String :=
  match payload.order with
  | none => (db, some "Invalid webhook: Missing 'order' data")
  | some od =>
    let mrid := od.merchantReferenceId.getD ""
    if mrid = "" then
      (db, some "Merchant reference ID not found in webhook payload")
    else
      match db.find? (fun p => p.merchant_reference_id == mrid) with
      | none =>
        (db, some ("Payment with merchant reference ID " ++ mrid ++ " not found"))
      | some payment =>
        let payment' := webhookStatusUpdate od payment
        (db.map (fun p => if p.merchant_reference_id == mrid then payment' else p), none)

/-- The HTTP response of the `/payments/webhook` route. -/
inductive WebhookHttpResponse where
  | ok200
  | err500 (detail : String)
deriving DecidableEq, Repr

/-- Embeds `geidea_webhook` (geidea_router.py lines 66-74).  The argument is the
result of `await request.json()`: `none` when the body is not valid JSON (the
only exception the route can see, since `handle_webhook` swallows its own).
On a parsed body the route always answers the fixed success JSON. -/
def geidea_webhook (body : Option WebhookPayload) (db : DB) : DB × WebhookHttpResponse :=
  match body with
  | none => (db, .err500 "Webhook processing failed: invalid JSON body")
  | some payload =>
    let r := handle_webhook payload db
    (r.1, .ok200)

/-- A status is terminal when it is not PENDING (spec §4.4: all four
right-hand states are terminal). -/
def PStatus.isTerminal : PStatus → Bool
  | .PENDING => false
  | _ => true

/-- Modelled from the spec (§4.4 step 3): the case-insensitive mapping of
the gateway status string to the internal enum, written exactly as the spec
words it.  Used as the reference against `handle_webhook`'s inline chain. -/
def mapGatewayStatusSpec (st : Option String) : PStatus :=
  match st with
  | none => .UNKNOWN
  | some s =>
    if pyLower s = "success" then .SUCCESS
    else if pyLower s = "failed" ∨ pyLower s = "declined" then .FAILED
    else if pyLower s = "cancelled" ∨ pyLower s = "canceled" then .CANCELLED
    else .UNKNOWN

/-- Gateway credentials, read from settings (`GeideaManager.PUBLIC_KEY`,
`GeideaManager.API_PASSWORD`); the URLs are never branched on. -/
structure GeideaConfig where
  publicKey : String
  apiPassword : String
deriving DecidableEq, Repr

/-- The fields of the gateway's create-session JSON response that
`create_geidea_session` reads; each `data.get(...)` is an `Option`.
`sessionId` stands for `(data.get("session") or \x7b\x7d).get("id")`. -/
structure GeideaResponse where
  responseCode : Option String := none
  detailedResponseCode : Option String := none
  detailedResponseMessage : Option String := none
  responseMessage : Option String := none
  sessionId : Option String := none
deriving DecidableEq, Repr

/-- The outcome of the single outbound HTTP POST to the gateway:
either `httpx` raised (network failure) or a response arrived with a
status code, a raw body text, and the parsed JSON fields. -/
inductive GatewayOutcome where
  | networkError (msg : String)
  | httpResponse (statusCode : Nat) (bodyText : String) (data : GeideaResponse)
deriving DecidableEq, Repr

/-- Python string truthiness: `bool(s)` for an optional string. -/
def truthy (o : Option String) : Bool :=
  match o with
  | none => false
  | some s => s ≠ ""

/-- Computes `data.get("detailedResponseMessage") or data.get("responseMessage") or
"Unknown error"` — Python `or` picks the first truthy (non-empty) string. -/
def declineMessage (data : GeideaResponse) : String :=
  if truthy data.detailedResponseMessage then data.detailedResponseMessage.getD ""
  else if truthy data.responseMessage then data.responseMessage.getD ""
  else "Unknown error"

/-- Embeds `GeideaManager.create_geidea_session` (geidea_manager.py lines 78-149),
restricted to its response handling: the request construction feeds
`_generate_signature` (embedded separately) and does not affect control
flow.  Returns the committed store and either the session id or the raised
`HTTPException`.  On every error path nothing was mutated since the last
commit, so the rollback in the final `except` leaves the store unchanged. -/
def create_geidea_session (cfg : GeideaConfig) (outcome : GatewayOutcome)
    (payment : Payment) (db : DB) : DB × Except HErr String :=
  if cfg.publicKey = "" ∨ cfg.apiPassword = "" then
    (db, .error ⟨500, "Geidea credentials are not configured on the server"⟩)
  else
    match outcome with
    | .networkError msg =>
      (db, .error ⟨502, "Failed to reach Geidea: " ++ msg⟩)
    | .httpResponse statusCode bodyText data =>
      if statusCode ≥ 400 then
        (db, .error ⟨statusCode, "Geidea error: " ++ bodyText⟩)
      else if data.responseCode ≠ some "000" ∨
          (data.detailedResponseCode ≠ some "000" ∧
           data.detailedResponseCode ≠ some "00000" ∧
           data.detailedResponseCode ≠ none) then
        (db, .error ⟨400, "Geidea create session failed: " ++ declineMessage data⟩)
      else
        let sessionId := data.sessionId.getD ""
        if sessionId = "" then
          (db, .error ⟨500, "Missing session id from Geidea response"⟩)
        else
          (db.map (fun p => if p.id == payment.id then
            { p with geidea_session_id := some sessionId } else p),
           .ok sessionId)

/-- Embeds `GeideaManager.create_payment_record` (geidea_manager.py lines 37-57) on
the successful-insert path: builds the PENDING row with a fresh merchant
reference (`merchantRef`, `str(uuid.uuid4())` in the source) and the
store-assigned primary key `pid`, and commits it. -/
def create_payment_record (uid : Nat) (amountCents : Nat) (currency : String)
    (merchantRef : String) (pid : Nat) (db : DB) : DB × Payment :=
  let payment : Payment :=
    { id := pid, user_id := uid, amountCents := amountCents,
      currency := currency, merchant_reference_id := merchantRef,
      status := .PENDING }
  (db ++ [payment], payment)

/-- Replace the row with primary key `pid` (an ORM attribute assignment
followed by `commit`). -/
def updateById (db : DB) (pid : Nat) (f : Payment → Payment) : DB :=
  db.map (fun p => if p.id == pid then f p else p)

/-- Embeds `GeideaManager.create_payment_session` (geidea_manager.py lines 151-170).
`orderPayload` / `shippingPayload` are the already-serialized
`json.dumps` strings.  The trailing `except Exception` has no
`except HTTPException: raise` guard, so the `HTTPException` raised by
`create_geidea_session` is itself caught and re-raised as a 500 whose
detail embeds `str(e)`. -/
def create_payment_session (cfg : GeideaConfig) (uid : Nat)
    (amountCents : Nat) (currency : String)
    (orderPayload shippingPayload : Option String)
    (merchantRef : String) (pid : Nat) (outcome : GatewayOutcome)
    (db : DB) : DB × Except HErr (String × Nat) :=
  let r1 := create_payment_record uid amountCents currency merchantRef pid db
  let db2 := updateById r1.1 pid (fun p =>
    { p with order_payload := orderPayload,
             shipping_address_payload := shippingPayload })
  let payment2 := { r1.2 with order_payload := orderPayload,
                              shipping_address_payload := shippingPayload }
  match create_geidea_session cfg outcome payment2 db2 with
  | (db3, .ok sessionId) => (db3, .ok (sessionId, pid))
  | (db3, .error e) =>
    (db3, .error ⟨500, "Failed to create payment session: " ++ e.toText⟩)

/-- Embeds `GeideaManager.get_payment_by_id` (geidea_manager.py lines 172-180):
the lookup filters on the payment id AND the calling user's id in one query. -/
def get_payment_by_id (uid : Nat) (payment_id : Nat) (db : DB) : Option Payment :=
  db.find? (fun p => p.id == payment_id && p.user_id == uid)

/-- The response body of `GET /payments/status/\x7bpayment_id\x7d`
(`PaymentStatusResponse`, minus `created_at` which is not modelled). -/
structure StatusView where
  payment_id : Nat
  status : PStatus
  amountCents : Nat
  currency : String
  merchant_reference_id : String
deriving DecidableEq, Repr

/-- Embeds `get_payment_status` (geidea_router.py lines 39-64). -/
def get_payment_status (uid : Nat) (payment_id : Nat) (db : DB) :
    Except HErr StatusView :=
  match get_payment_by_id uid payment_id db with
  | none => .error ⟨404, "Payment not found"⟩
  | some p =>
    .ok { payment_id := p.id, status := p.status, amountCents := p.amountCents,
          currency := p.currency, merchant_reference_id := p.merchant_reference_id }

/-- The validated fields of `CreatePaymentRequest` that reach the manager. -/
structure CreatePaymentRequestV where
  amountCents : Nat
  currency : String
  language : String
deriving DecidableEq, Repr

/-- Embeds `CreatePaymentRequest` (schemas.py lines 66-76): `amount` must be > 0,
`currency` defaults to "AED" when absent, must be exactly 3 characters when
supplied, and the field validator uppercases the supplied value; `language`
defaults to "en". -/
def validateCreatePaymentRequest (amountCents : Nat) (currency : Option String)
    (language : Option String) : Except String CreatePaymentRequestV :=
  if amountCents = 0 then
    .error "amount: ensure this value is greater than 0"
  else
    match currency with
    | none => .ok { amountCents := amountCents, currency := "AED",
                    language := language.getD "en" }
    | some c =>
      if c.length ≠ 3 then
        .error "currency: ensure this value has 3 characters"
      else
        .ok { amountCents := amountCents, currency := pyUpper c,
              language := language.getD "en" }

/-- The HTTP status code a caller observes from a manager result: the
status of the raised `HTTPException`, or none on success. -/
def observedStatus {α : Type} (r : Except HErr α) : Option Nat :=
  match r with
  | .error e => some e.status
  | .ok _ => none

/-! Byte-level primitives used by `_generate_signature`.

`hmac.new(key, data, hashlib.sha256)` and `base64.b64encode` are embedded
as executable functions over byte lists (`Nat` values < 256, arithmetic
explicitly mod 2^32 inside SHA-256). -/

/-- The constant 2^32, the word modulus of SHA-256. -/
def M32 : Nat := 4294967296

/-- Right rotation of a 32-bit word. -/
def rotr32 (x n : Nat) : Nat := ((x >>> n) ||| (x <<< (32 - n))) % M32

/-- UTF-8 encoding of one character (`str.encode("utf-8")`). -/
def utf8Char (c : Char) : List Nat :=
  let n := c.toNat
  if n < 128 then [n]
  else if n < 2048 then [192 ||| (n >>> 6), 128 ||| (n % 64)]
  else if n < 65536 then
    [224 ||| (n >>> 12), 128 ||| ((n >>> 6) % 64), 128 ||| (n % 64)]
  else
    [240 ||| (n >>> 18), 128 ||| ((n >>> 12) % 64), 128 ||| ((n >>> 6) % 64),
     128 ||| (n % 64)]

/-- UTF-8 encoding of a string as a byte list. -/
def utf8Bytes (s : String) : List Nat := (s.data.map utf8Char).flatten

/-- Big-endian byte rendering of `n` on `len` bytes. -/
def toBytesBE (n : Nat) (len : Nat) : List Nat :=
  (List.range len).map (fun i => (n >>> (8 * (len - 1 - i))) % 256)

/-- SHA-256 round constants (the fractional parts of the cube roots of the
first 64 primes, here as decimal 32-bit words). -/
def shaK : Array Nat :=
  #[1116352408, 1899447441, 3049323471, 3921009573, 961987163,
    1508970993, 2453635748, 2870763221, 3624381080, 310598401,
    607225278, 1426881987, 1925078388, 2162078206, 2614888103,
    3248222580, 3835390401, 4022224774, 264347078, 604807628,
    770255983, 1249150122, 1555081692, 1996064986, 2554220882,
    2821834349, 2952996808, 3210313671, 3336571891, 3584528711,
    113926993, 338241895, 666307205, 773529912, 1294757372,
    1396182291, 1695183700, 1986661051, 2177026350, 2456956037,
    2730485921, 2820302411, 3259730800, 3345764771, 3516065817,
    3600352804, 4094571909, 275423344, 430227734, 506948616,
    659060556, 883997877, 958139571, 1322822218, 1537002063,
    1747873779, 1955562222, 2024104815, 2227730452, 2361852424,
    2428436474, 2756734187, 3204031479, 3329325298]

/-- SHA-256 initial hash state (fractional parts of the square roots of the
first 8 primes, as decimal 32-bit words). -/
def shaH0 : Array Nat :=
  #[1779033703, 3144134277, 1013904242, 2773480762,
    1359893119, 2600822924, 528734635, 1541459225]

/-- SHA-256 message padding: append `0x80`, zero bytes to 56 mod 64, then
the bit length on 8 big-endian bytes. -/
def padMessage (msg : List Nat) : List Nat :=
  let L := msg.length
  let padZeros := (119 - L % 64) % 64
  msg ++ [128] ++ List.replicate padZeros 0 ++ toBytesBE (8 * L) 8

/-- Split a (padded) byte list into 64-byte blocks. -/
def toBlocks (l : List Nat) : List (List Nat) :=
  (List.range ((l.length + 63) / 64)).map (fun i => ((l.drop (64 * i)).take 64))

/-- Big-endian 32-bit word `i` of a 64-byte block. -/
def wordAt (block : List Nat) (i : Nat) : Nat :=
  (block.getD (4 * i) 0) <<< 24 ||| (block.getD (4 * i + 1) 0) <<< 16 |||
  (block.getD (4 * i + 2) 0) <<< 8 ||| block.getD (4 * i + 3) 0

/-- SHA-256 small sigma 0. -/
def ssig0 (x : Nat) : Nat := rotr32 x 7 ^^^ rotr32 x 18 ^^^ (x >>> 3)

/-- SHA-256 small sigma 1. -/
def ssig1 (x : Nat) : Nat := rotr32 x 17 ^^^ rotr32 x 19 ^^^ (x >>> 10)

/-- SHA-256 big sigma 0. -/
def bsig0 (x : Nat) : Nat := rotr32 x 2 ^^^ rotr32 x 13 ^^^ rotr32 x 22

/-- SHA-256 big sigma 1. -/
def bsig1 (x : Nat) : Nat := rotr32 x 6 ^^^ rotr32 x 11 ^^^ rotr32 x 25

/-- The 64-word message schedule of a block. -/
def schedule (block : List Nat) : Array Nat :=
  let w0 := (Array.range 16).map (fun i => wordAt block i)
  (List.range 48).foldl (fun w j =>
    let i := j + 16
    w.push ((ssig1 (w.getD (i - 2) 0) + w.getD (i - 7) 0 +
             ssig0 (w.getD (i - 15) 0) + w.getD (i - 16) 0) % M32)) w0

/-- One SHA-256 compression step over a 64-byte block. -/
def compressBlock (h : Array Nat) (block : List Nat) : Array Nat :=
  let w := schedule block
  let st := (List.range 64).foldl (fun (st : Array Nat) i =>
    let a := st.getD 0 0
    let b := st.getD 1 0
    let c := st.getD 2 0
    let d := st.getD 3 0
    let e := st.getD 4 0
    let f := st.getD 5 0
    let g := st.getD 6 0
    let hh := st.getD 7 0
    let ch := (e.land f) ^^^ ((e ^^^ (M32 - 1)).land g)
    let t1 := (hh + bsig1 e + ch + shaK.getD i 0 + w.getD i 0) % M32
    let maj := (a.land b) ^^^ (a.land c) ^^^ (b.land c)
    let t2 := (bsig0 a + maj) % M32
    #[(t1 + t2) % M32, a, b, c, (d + t1) % M32, e, f, g]) h
  #[(h.getD 0 0 + st.getD 0 0) % M32, (h.getD 1 0 + st.getD 1 0) % M32,
    (h.getD 2 0 + st.getD 2 0) % M32, (h.getD 3 0 + st.getD 3 0) % M32,
    (h.getD 4 0 + st.getD 4 0) % M32, (h.getD 5 0 + st.getD 5 0) % M32,
    (h.getD 6 0 + st.getD 6 0) % M32, (h.getD 7 0 + st.getD 7 0) % M32]

/-- SHA-256 of a byte list (`hashlib.sha256(...).digest()`). -/
def sha256 (msg : List Nat) : List Nat :=
  let final := (toBlocks (padMessage msg)).foldl compressBlock shaH0
  (final.toList.map (fun x => toBytesBE x 4)).flatten

/-- HMAC-SHA256 (`hmac.new(key, msg, hashlib.sha256).digest()`). -/
def hmacSha256 (key msg : List Nat) : List Nat :=
  let k0 := if key.length > 64 then sha256 key else key
  let kPad := k0 ++ List.replicate (64 - k0.length) 0
  let ipad := kPad.map (fun b => b ^^^ 54)
  let opad := kPad.map (fun b => b ^^^ 92)
  sha256 (opad ++ sha256 (ipad ++ msg))

/-- The standard base64 alphabet character at index `i`. -/
def b64Char (i : Nat) : Char :=
  "ABCDEFGHIJKLMNOPQRSTUVWXYZabcdefghijklmnopqrstuvwxyz0123456789+/".data.getD i
    (Char.ofNat 65)

/-- Standard base64 encoding with `=` padding (`base64.b64encode`). -/
def base64Encode : List Nat → String
  | [] => ""
  | [b1] =>
    String.mk [b64Char (b1 >>> 2), b64Char ((b1 % 4) <<< 4), Char.ofNat 61,
               Char.ofNat 61]
  | [b1, b2] =>
    String.mk [b64Char (b1 >>> 2), b64Char (((b1 % 4) <<< 4) ||| (b2 >>> 4)),
               b64Char ((b2 % 16) <<< 2), Char.ofNat 61]
  | b1 :: b2 :: b3 :: rest =>
    String.mk [b64Char (b1 >>> 2), b64Char (((b1 % 4) <<< 4) ||| (b2 >>> 4)),
               b64Char (((b2 % 16) <<< 2) ||| (b3 >>> 6)), b64Char (b3 % 64)] ++
    base64Encode rest

/-- Two-digit decimal rendering of `n < 100`. -/
def pad2 (n : Nat) : String :=
  if n < 10 then "0" ++ Nat.repr n else Nat.repr n

/-- Embeds `GeideaManager._format_amount_two_decimals` (geidea_manager.py lines
59-61): `f"\x7bamount:.2f\x7d"` on the stored two-decimal amount, over the
cents representation. -/
def format_amount_two_decimals (amountCents : Nat) : String :=
  Nat.repr (amountCents / 100) ++ "." ++ pad2 (amountCents % 100)

/-- Embeds `GeideaManager._generate_signature` (geidea_manager.py lines 63-76),
parameters in the source's order. -/
def generate_signature (merchant_public_key : String) (amountCents : Nat)
    (currency : String) (merchant_reference_id : String)
    (api_password : String) (timestamp : String) : String :=
  let amount_str := format_amount_two_decimals amountCents
  let data := merchant_public_key ++ amount_str ++ currency ++
    merchant_reference_id ++ timestamp
  let digest := hmacSha256 (utf8Bytes api_password) (utf8Bytes data)
  base64Encode digest

/-! Theorems about the embedded operations. -/

/-- The inline status chain of `handle_webhook` computes exactly the
spec's case-insensitive mapping, and attaches the order id exactly on the
SUCCESS outcome. -/
theorem webhookStatusUpdate_eq_spec (od : OrderData) (p : Payment) :
    webhookStatusUpdate od p =
      { p with status := mapGatewayStatusSpec od.status,
               geidea_order_id :=
                 if mapGatewayStatusSpec od.status = .SUCCESS then od.orderId
                 else p.geidea_order_id } := by
  rcases od with ⟨mr, oid, st⟩
  cases st with
  | none => simp [webhookStatusUpdate, mapGatewayStatusSpec]
  | some s =>
    by_cases hs : s = ""
    · subst hs
      simp [webhookStatusUpdate, mapGatewayStatusSpec]
      simp [show pyLower "" = "" from rfl]
    · by_cases h1 : pyLower s = "success"
      · simp [webhookStatusUpdate, mapGatewayStatusSpec, hs, h1]
      · by_cases h2 : pyLower s = "failed" ∨ pyLower s = "declined"
        · simp [webhookStatusUpdate, mapGatewayStatusSpec, hs, h1, h2]
        · by_cases h3 : pyLower s = "cancelled" ∨ pyLower s = "canceled"
          · simp [webhookStatusUpdate, mapGatewayStatusSpec, hs, h1, h2, h3]
          · simp [webhookStatusUpdate, mapGatewayStatusSpec, hs, h1, h2, h3]

/-- C1 (code bug): a Payment already in the terminal state SUCCESS is
overwritten by a later conflicting webhook.  `handle_webhook` has no
terminal-state check before the write at geidea_manager.py lines 205-216:
on the store holding the SUCCESS payment `ref-1`, a webhook claiming
`Failed` flips the status to FAILED, contradicting the claim that terminal
Payments are left unchanged. -/
theorem handle_webhook_overwrites_terminal_status :
    PStatus.isTerminal .SUCCESS = true ∧
    (handle_webhook ⟨some ⟨some "ref-1", some "ord-2", some "Failed"⟩⟩
      [{ id := 1, user_id := 7, amountCents := 1000, currency := "AED",
         merchant_reference_id := "ref-1", geidea_order_id := some "ord-1",
         geidea_session_id := some "sess-1", status := .SUCCESS }]).1 =
      [{ id := 1, user_id := 7, amountCents := 1000, currency := "AED",
         merchant_reference_id := "ref-1", geidea_order_id := some "ord-1",
         geidea_session_id := some "sess-1", status := .FAILED }] := by
  decide

/-- C7: on a webhook whose merchant reference finds a PENDING Payment, the
gateway status string is mapped case-insensitively ("success" to SUCCESS,
"failed"/"declined" to FAILED, "cancelled"/"canceled" to CANCELLED, anything
else to UNKNOWN), the mapped status is written to the found Payment, and
`geidea_order_id` is written exactly when the mapped status is SUCCESS; the
webhook completes without a logged error. -/
theorem handle_webhook_pending_status_mapping
    (db : DB) (r : String) (oid st : Option String) (p : Payment)
    (hr : r ≠ "")
    (hfind : db.find? (fun q => q.merchant_reference_id == r) = some p)
    (hpend : p.status = .PENDING) :
    handle_webhook ⟨some ⟨some r, oid, st⟩⟩ db =
      (db.map (fun q => if q.merchant_reference_id == r then
          { p with status := mapGatewayStatusSpec st,
                   geidea_order_id :=
                     if mapGatewayStatusSpec st = .SUCCESS then oid
                     else p.geidea_order_id }
        else q), none) := by
  simp only [handle_webhook, Option.getD_some, if_neg hr, hfind,
    webhookStatusUpdate_eq_spec]

/-- Witness for C7: a "Success" webhook on the PENDING payment `ref-7`
writes SUCCESS and attaches the order id. -/
theorem handle_webhook_pending_status_mapping_witness :
    ("ref-7" : String) ≠ "" ∧
    handle_webhook ⟨some ⟨some "ref-7", some "ord-9", some "Success"⟩⟩
      [{ id := 3, user_id := 4, amountCents := 10000, currency := "AED",
         merchant_reference_id := "ref-7", status := .PENDING }] =
      ([{ id := 3, user_id := 4, amountCents := 10000, currency := "AED",
          merchant_reference_id := "ref-7", status := .PENDING }].map
        (fun q => if q.merchant_reference_id == "ref-7" then
          { ({ id := 3, user_id := 4, amountCents := 10000, currency := "AED",
               merchant_reference_id := "ref-7",
               status := .PENDING } : Payment) with
            status := mapGatewayStatusSpec (some "Success"),
            geidea_order_id :=
              if mapGatewayStatusSpec (some "Success") = .SUCCESS
              then some "ord-9"
              else ({ id := 3, user_id := 4, amountCents := 10000,
                      currency := "AED", merchant_reference_id := "ref-7",
                      status := .PENDING } : Payment).geidea_order_id }
          else q), none) :=
  ⟨by decide,
   handle_webhook_pending_status_mapping _ "ref-7" (some "ord-9")
     (some "Success") _ (by decide) (by decide) (by decide)⟩

/-- C4: a webhook payload with no `order` object, with no
`merchantReferenceId`, or whose merchant reference matches no stored
Payment is rejected with the store unchanged: an error is logged, no
Payment is created or mutated, and the route still answers 200. -/
theorem handle_webhook_rejects_without_state_change
    (payload : WebhookPayload) (db : DB)
    (h : payload.order = none ∨
         ∃ od, payload.order = some od ∧
           (od.merchantReferenceId = none ∨ od.merchantReferenceId = some "" ∨
            ∃ r, od.merchantReferenceId = some r ∧
              db.find? (fun p => p.merchant_reference_id == r) = none)) :
    (handle_webhook payload db).1 = db ∧
    ((handle_webhook payload db).2).isSome = true ∧
    (geidea_webhook (some payload) db).2 = .ok200 := by
  refine ⟨?_, ?_, by simp [geidea_webhook]⟩ <;>
  · rcases h with h | ⟨od, hod, h2⟩
    · simp [handle_webhook, h]
    · rcases h2 with h2 | h2 | ⟨r, hr, hfind⟩
      · simp [handle_webhook, hod, h2]
      · simp [handle_webhook, hod, h2]
      · by_cases hre : r = ""
        · subst hre; simp [handle_webhook, hod, hr]
        · simp [handle_webhook, hod, hr, hre, hfind]

/-- Witness for C4: a webhook for the unknown reference `ref-x` on an empty
store changes nothing, logs an error, and is acknowledged with 200. -/
theorem handle_webhook_rejects_without_state_change_witness :
    (handle_webhook ⟨some ⟨some "ref-x", none, some "Success"⟩⟩ []).1 = [] ∧
    ((handle_webhook ⟨some ⟨some "ref-x", none, some "Success"⟩⟩ []).2).isSome
      = true ∧
    (geidea_webhook (some ⟨some ⟨some "ref-x", none, some "Success"⟩⟩) []).2
      = .ok200 :=
  handle_webhook_rejects_without_state_change _ []
    (Or.inr ⟨_, rfl, Or.inr (Or.inr ⟨"ref-x", rfl, by decide⟩)⟩)

/-- C9 counterexample: a failed reconciliation (unknown merchant reference,
error logged, store untouched) and a successful reconciliation (PENDING
payment written) produce identical responses at the webhook route: the
caller cannot distinguish them. -/
theorem webhook_failure_indistinguishable_to_caller :
    (geidea_webhook (some ⟨some ⟨some "ref-a", none, some "Failed"⟩⟩) []).2 =
      (geidea_webhook (some ⟨some ⟨some "ref-b", some "ord-1", some "Success"⟩⟩)
        [{ id := 1, user_id := 2, amountCents := 700, currency := "AED",
           merchant_reference_id := "ref-b", status := .PENDING }]).2 ∧
    ((handle_webhook ⟨some ⟨some "ref-a", none, some "Failed"⟩⟩ []).2).isSome
      = true ∧
    (handle_webhook ⟨some ⟨some "ref-b", some "ord-1", some "Success"⟩⟩
      [{ id := 1, user_id := 2, amountCents := 700, currency := "AED",
         merchant_reference_id := "ref-b", status := .PENDING }]).2 = none := by
  decide

/-- C9 amended: whenever the request body parses as JSON, the webhook route
acknowledges with the fixed success response, regardless of whether the
reconciliation attempt succeeded; failures are only recorded in the
server log (`handle_webhook`'s returned message), not reported to the
caller. -/
theorem webhook_always_acknowledged_success
    (payload : WebhookPayload) (db : DB) :
    (geidea_webhook (some payload) db).2 = .ok200 := by
  simp [geidea_webhook]

/-- Every error path of `create_geidea_session` leaves the store as it was:
the only write (attaching the session id) happens on the success path. -/
theorem create_geidea_session_error_keeps_db
    (cfg : GeideaConfig) (outcome : GatewayOutcome) (p : Payment) (db : DB)
    (e : HErr) (h : (create_geidea_session cfg outcome p db).2 = .error e) :
    (create_geidea_session cfg outcome p db).1 = db := by
  by_cases h1 : cfg.publicKey = "" ∨ cfg.apiPassword = ""
  · simp [create_geidea_session, h1]
  · cases outcome with
    | networkError m => simp [create_geidea_session, h1]
    | httpResponse sc txt data =>
      by_cases h2 : sc ≥ 400
      · simp [create_geidea_session, h1, h2]
      · by_cases h3 : data.responseCode ≠ some "000" ∨
            (data.detailedResponseCode ≠ some "000" ∧
             data.detailedResponseCode ≠ some "00000" ∧
             data.detailedResponseCode ≠ none)
        · simp [create_geidea_session, h1, h2, h3]
        · by_cases h4 : data.sessionId.getD "" = ""
          · simp [create_geidea_session, h1, h2, h3, h4]
          · exfalso
            simp [create_geidea_session, h1, h2, h3, h4] at h

/-- Updating the freshly appended row touches no pre-existing row. -/
theorem updateById_append_fresh (db : DB) (p : Payment) (pid : Nat)
    (f : Payment → Payment) (hfresh : ∀ q ∈ db, q.id ≠ pid)
    (hp : p.id = pid) :
    updateById (db ++ [p]) pid f = db ++ [f p] := by
  unfold updateById
  rw [List.map_append]
  congr 1
  · conv_rhs => rw [show db = db.map id from (List.map_id db).symm]
    apply List.map_congr_left
    intro q hq
    simp [hfresh q hq]
  · simp [hp]

/-- C3: whenever `create_payment_session` fails (any gateway error:
network failure, HTTP >= 400, gateway decline, or missing session id), the
already-committed Payment row is retained unchanged: the resulting store is
the original store plus exactly the inserted row, still PENDING, with no
`geidea_session_id`, not deleted.  (`pid` is the store-assigned primary key,
fresh by construction.) -/
theorem create_payment_session_retains_pending_on_gateway_error
    (cfg : GeideaConfig) (uid aC : Nat) (cur : String)
    (ordP shipP : Option String) (ref : String) (pid : Nat)
    (outcome : GatewayOutcome) (db : DB) (e : HErr)
    (hfresh : ∀ q ∈ db, q.id ≠ pid)
    (herr : (create_payment_session cfg uid aC cur ordP shipP ref pid outcome
      db).2 = .error e) :
    (create_payment_session cfg uid aC cur ordP shipP ref pid outcome db).1 =
      db ++ [{ id := pid, user_id := uid, amountCents := aC, currency := cur,
               merchant_reference_id := ref, geidea_order_id := none,
               geidea_session_id := none, order_payload := ordP,
               shipping_address_payload := shipP, status := .PENDING }] := by
  have hdb2 : updateById
      (db ++ [{ id := pid, user_id := uid, amountCents := aC, currency := cur,
                merchant_reference_id := ref, status := .PENDING }]) pid
      (fun p => { p with order_payload := ordP,
                         shipping_address_payload := shipP }) =
      db ++ [{ id := pid, user_id := uid, amountCents := aC, currency := cur,
               merchant_reference_id := ref, geidea_order_id := none,
               geidea_session_id := none, order_payload := ordP,
               shipping_address_payload := shipP, status := .PENDING }] :=
    updateById_append_fresh db _ pid _ hfresh rfl
  unfold create_payment_session create_payment_record at herr ⊢
  simp only at herr ⊢
  rw [hdb2] at herr ⊢
  rcases hgs : create_geidea_session cfg outcome
      { id := pid, user_id := uid, amountCents := aC, currency := cur,
        merchant_reference_id := ref, geidea_order_id := none,
        geidea_session_id := none, order_payload := ordP,
        shipping_address_payload := shipP, status := .PENDING }
      (db ++ [{ id := pid, user_id := uid, amountCents := aC, currency := cur,
                merchant_reference_id := ref, geidea_order_id := none,
                geidea_session_id := none, order_payload := ordP,
                shipping_address_payload := shipP, status := .PENDING }])
    with ⟨db3, r⟩
  rw [hgs] at herr ⊢
  cases r with
  | ok sid => simp at herr
  | error e2 =>
    have := create_geidea_session_error_keeps_db cfg outcome _ _ e2
      (by rw [hgs])
    rw [hgs] at this
    simpa using this

/-- Witness for C3: a network failure after the insert leaves the store
holding exactly the new PENDING row. -/
theorem create_payment_session_retains_pending_on_gateway_error_witness :
    (create_payment_session ⟨"pk", "pw"⟩ 4 2500 "AED" none none "ref-3" 11
      (.networkError "timeout") []).1 =
      [] ++ [{ id := 11, user_id := 4, amountCents := 2500, currency := "AED",
               merchant_reference_id := "ref-3", geidea_order_id := none,
               geidea_session_id := none, order_payload := none,
               shipping_address_payload := none, status := .PENDING }] :=
  create_payment_session_retains_pending_on_gateway_error
    ⟨"pk", "pw"⟩ 4 2500 "AED" none none "ref-3" 11 (.networkError "timeout")
    []
    ⟨500, "Failed to create payment session: 502: Failed to reach Geidea: timeout"⟩
    (by decide) (by rfl)

/-- C5 counterexample: on a network failure, the error the caller of
`create_payment_session` observes has HTTP status 500, not the 502
bad-gateway status: the inner `HTTPException(502, ...)` is caught by the
blanket `except Exception` of `create_payment_session` and re-raised as a
500 internal error. -/
theorem network_failure_not_surfaced_as_bad_gateway :
    observedStatus (create_payment_session ⟨"pk", "pw"⟩ 1 1000 "AED" none none
      "ref-1" 1 (.networkError "connect timeout") []).2 ≠ some 502 ∧
    observedStatus (create_payment_session ⟨"pk", "pw"⟩ 1 1000 "AED" none none
      "ref-1" 1 (.networkError "connect timeout") []).2 = some 500 := by
  decide

/-- C5 amended: `create_geidea_session` raises 502 (`GatewayUnreachable`) on
a network failure, but `create_payment_session` has no
`except HTTPException: raise` clause, so it catches that exception and
re-raises a 500 internal error whose detail embeds the stringified 502;
the upstream-unavailable condition reaches the caller only inside the
message text, not as a bad-gateway status code. -/
theorem network_failure_wrapped_as_internal_500
    (cfg : GeideaConfig) (uid aC : Nat) (cur : String)
    (ordP shipP : Option String) (ref : String) (pid : Nat) (msg : String)
    (db : DB) (hcfg : cfg.publicKey ≠ "" ∧ cfg.apiPassword ≠ "") :
    (create_payment_session cfg uid aC cur ordP shipP ref pid
      (.networkError msg) db).2 =
      .error ⟨500,
        "Failed to create payment session: 502: Failed to reach Geidea: "
          ++ msg⟩ := by
  have h1 : ¬(cfg.publicKey = "" ∨ cfg.apiPassword = "") := by
    rintro (h | h)
    · exact hcfg.1 h
    · exact hcfg.2 h
  have h2 : ∀ d : String, HErr.toText ⟨502, d⟩ = "502: " ++ d := fun d =>
    Eq.trans (rfl : HErr.toText ⟨502, d⟩ = toString (502 : Nat) ++ ": " ++ d)
      (rfl : toString (502 : Nat) ++ ": " ++ d = "502: " ++ d)
  unfold create_payment_session create_geidea_session
  simp only [if_neg h1, h2, ← String.append_assoc]
  rfl

/-- Witness for C5's amended theorem at a concrete configuration. -/
theorem network_failure_wrapped_as_internal_500_witness :
    (("pk" : String) ≠ "" ∧ ("pw" : String) ≠ "") ∧
    (create_payment_session ⟨"pk", "pw"⟩ 9 4200 "SAR" none none "ref-9" 2
      (.networkError "boom") []).2 =
      .error ⟨500,
        "Failed to create payment session: 502: Failed to reach Geidea: "
          ++ "boom"⟩ :=
  ⟨by decide,
   network_failure_wrapped_as_internal_500 ⟨"pk", "pw"⟩ 9 4200 "SAR" none
     none "ref-9" 2 "boom" [] (by decide)⟩

/-- C6: for a 2xx/3xx gateway response (status < 400, credentials
configured), session creation succeeds iff `responseCode = "000"`,
`detailedResponseCode` is "000", "00000" or absent, and a non-empty session
id is present at `session.id`; a failing code combination yields the 400
decline error carrying the gateway's detail message, and a passing code
check with a missing (or empty) session id yields the 500 protocol error. -/
theorem create_geidea_session_response_code_policy
    (cfg : GeideaConfig) (sc : Nat) (txt : String) (data : GeideaResponse)
    (p : Payment) (db : DB)
    (hpk : cfg.publicKey ≠ "") (hpw : cfg.apiPassword ≠ "") (hsc : sc < 400) :
    ((∃ sid, (create_geidea_session cfg (.httpResponse sc txt data) p db).2 =
        .ok sid) ↔
      (data.responseCode = some "000" ∧
       (data.detailedResponseCode = some "000" ∨
        data.detailedResponseCode = some "00000" ∨
        data.detailedResponseCode = none) ∧
       ∃ s, data.sessionId = some s ∧ s ≠ "")) ∧
    (¬(data.responseCode = some "000" ∧
       (data.detailedResponseCode = some "000" ∨
        data.detailedResponseCode = some "00000" ∨
        data.detailedResponseCode = none)) →
      (create_geidea_session cfg (.httpResponse sc txt data) p db).2 =
        .error ⟨400, "Geidea create session failed: " ++ declineMessage data⟩) ∧
    ((data.responseCode = some "000" ∧
      (data.detailedResponseCode = some "000" ∨
       data.detailedResponseCode = some "00000" ∨
       data.detailedResponseCode = none)) →
      ¬(∃ s, data.sessionId = some s ∧ s ≠ "") →
      (create_geidea_session cfg (.httpResponse sc txt data) p db).2 =
        .error ⟨500, "Missing session id from Geidea response"⟩) := by
  have h1 : ¬(cfg.publicKey = "" ∨ cfg.apiPassword = "") := by
    rintro (h | h)
    · exact hpk h
    · exact hpw h
  have h2 : ¬(sc ≥ 400) := by omega
  by_cases h3 : data.responseCode ≠ some "000" ∨
      (data.detailedResponseCode ≠ some "000" ∧
       data.detailedResponseCode ≠ some "00000" ∧
       data.detailedResponseCode ≠ none)
  · have h3' : ¬(data.responseCode = some "000" ∧
        (data.detailedResponseCode = some "000" ∨
         data.detailedResponseCode = some "00000" ∨
         data.detailedResponseCode = none)) := by tauto
    refine ⟨?_, fun _ => ?_, fun hok _ => absurd hok h3'⟩
    · simp only [create_geidea_session, if_neg h1, if_neg h2, if_pos h3]
      constructor
      · rintro ⟨sid, hsid⟩; simp at hsid
      · intro hok; exact absurd ⟨hok.1, hok.2.1⟩ h3'
    · simp only [create_geidea_session, if_neg h1, if_neg h2, if_pos h3]
  · have h3' : data.responseCode = some "000" ∧
        (data.detailedResponseCode = some "000" ∨
         data.detailedResponseCode = some "00000" ∨
         data.detailedResponseCode = none) := by tauto
    by_cases h4 : data.sessionId.getD "" = ""
    · have h4' : ¬(∃ s, data.sessionId = some s ∧ s ≠ "") := by
        rintro ⟨s, hs, hne⟩
        rw [hs] at h4
        exact hne h4
      refine ⟨?_, fun hbad => absurd h3' hbad, fun _ _ => ?_⟩
      · simp only [create_geidea_session, if_neg h1, if_neg h2, if_neg h3,
          if_pos h4]
        constructor
        · rintro ⟨sid, hsid⟩; simp at hsid
        · intro hok; exact absurd hok.2.2 h4'
      · simp only [create_geidea_session, if_neg h1, if_neg h2, if_neg h3,
          if_pos h4]
    · have h4' : ∃ s, data.sessionId = some s ∧ s ≠ "" := by
        cases hss : data.sessionId with
        | none => rw [hss] at h4; simp at h4
        | some s =>
          rw [hss] at h4
          exact ⟨s, rfl, by simpa using h4⟩
      refine ⟨?_, fun hbad => absurd h3' hbad, fun _ hno => absurd h4' hno⟩
      simp only [create_geidea_session, if_neg h1, if_neg h2, if_neg h3,
        if_neg h4]
      constructor
      · intro _; exact ⟨h3'.1, h3'.2, h4'⟩
      · intro _; exact ⟨data.sessionId.getD "", rfl⟩

/-- Witness for C6 at a concrete accepted response. -/
theorem create_geidea_session_response_code_policy_witness :
    (("pk" : String) ≠ "" ∧ ("pw" : String) ≠ "" ∧ (200 : Nat) < 400) ∧
    ((∃ sid, (create_geidea_session ⟨"pk", "pw"⟩
        (.httpResponse 200 "body"
          { responseCode := some "000", detailedResponseCode := some "000",
            sessionId := some "sess-1" })
        { id := 5, user_id := 6, amountCents := 100, currency := "AED",
          merchant_reference_id := "ref-5", status := .PENDING } []).2 =
        .ok sid) ↔
      ((some "000" : Option String) = some "000" ∧
       ((some "000" : Option String) = some "000" ∨
        (some "000" : Option String) = some "00000" ∨
        (some "000" : Option String) = none) ∧
       ∃ s, (some "sess-1" : Option String) = some s ∧ s ≠ "")) :=
  ⟨⟨by decide, by decide, by decide⟩,
   (create_geidea_session_response_code_policy ⟨"pk", "pw"⟩ 200 "body"
     { responseCode := some "000", detailedResponseCode := some "000",
       sessionId := some "sess-1" }
     { id := 5, user_id := 6, amountCents := 100, currency := "AED",
       merchant_reference_id := "ref-5", status := .PENDING } []
     (by decide) (by decide) (by decide)).1⟩

/-- C8: a Payment owned by user `a`, queried by a distinct user `b`, is
invisible: the lookup (which filters on owner inside the query itself)
returns none, the status route answers 404, and the answer is identical to
the one for a store in which no payment with that id exists at all. -/
theorem get_status_ownership_isolation
    (db : DB) (pid : Nat) (a b : Nat) (p : Payment)
    (hp : p ∈ db) (hpid : p.id = pid) (howner : p.user_id = a)
    (huniq : ∀ q ∈ db, q.id = pid → q.user_id = a)
    (hne : b ≠ a) :
    get_payment_by_id b pid db = none ∧
    get_payment_status b pid db = .error ⟨404, "Payment not found"⟩ ∧
    get_payment_status b pid db =
      get_payment_status b pid (db.filter (fun q => !(q.id == pid))) := by
  have hnone : get_payment_by_id b pid db = none := by
    unfold get_payment_by_id
    rw [List.find?_eq_none]
    intro q hq
    simp only [Bool.and_eq_true, beq_iff_eq, not_and]
    intro hqid
    rw [huniq q hq hqid]
    exact fun h => hne h.symm
  have hfilter : get_payment_by_id b pid
      (db.filter (fun q => !(q.id == pid))) = none := by
    unfold get_payment_by_id
    rw [List.find?_eq_none]
    intro q hq
    have := List.of_mem_filter hq
    simp only [Bool.not_eq_true', beq_eq_false_iff_ne, ne_eq] at this
    simp [this]
  refine ⟨hnone, ?_, ?_⟩ <;> unfold get_payment_status <;>
    rw [hnone] <;> try rw [hfilter]

/-- Witness for C8: user 8 cannot see user 7's payment 1. -/
theorem get_status_ownership_isolation_witness :
    get_payment_by_id 8 1
      [{ id := 1, user_id := 7, amountCents := 1000, currency := "AED",
         merchant_reference_id := "ref-1", status := .PENDING }] = none ∧
    get_payment_status 8 1
      [{ id := 1, user_id := 7, amountCents := 1000, currency := "AED",
         merchant_reference_id := "ref-1", status := .PENDING }] =
      .error ⟨404, "Payment not found"⟩ ∧
    get_payment_status 8 1
      [{ id := 1, user_id := 7, amountCents := 1000, currency := "AED",
         merchant_reference_id := "ref-1", status := .PENDING }] =
      get_payment_status 8 1
        ([{ id := 1, user_id := 7, amountCents := 1000, currency := "AED",
            merchant_reference_id := "ref-1",
            status := .PENDING }].filter (fun q => !(q.id == 1))) :=
  get_status_ownership_isolation _ 1 7 8
    { id := 1, user_id := 7, amountCents := 1000, currency := "AED",
      merchant_reference_id := "ref-1", status := .PENDING }
    (by decide) (by decide) (by decide) (by decide) (by decide)

/-- C10: a create-session request that omits `currency` is accepted and
validates to the default currency "AED"; a supplied (3-letter) currency is
uppercased by the schema validator; and `create_payment_record` stores the
validated currency unchanged (the same value line 91 of geidea_manager.py
then feeds to `_generate_signature`). -/
theorem create_payment_request_currency_defaults
    (aC : Nat) (lang : Option String) (c : String)
    (uid : Nat) (ref : String) (pid : Nat) (db : DB)
    (ha : 0 < aC) (hc : c.length = 3) :
    validateCreatePaymentRequest aC none lang =
      .ok { amountCents := aC, currency := "AED", language := lang.getD "en" } ∧
    validateCreatePaymentRequest aC (some c) lang =
      .ok { amountCents := aC, currency := pyUpper c,
            language := lang.getD "en" } ∧
    (create_payment_record uid aC "AED" ref pid db).2.currency = "AED" ∧
    (create_payment_record uid aC (pyUpper c) ref pid db).2.currency =
      pyUpper c := by
  have ha' : aC ≠ 0 := Nat.pos_iff_ne_zero.mp ha
  refine ⟨?_, ?_, rfl, rfl⟩
  · simp [validateCreatePaymentRequest, ha']
  · simp [validateCreatePaymentRequest, ha', hc]

/-- Witness for C10: an omitted currency validates to "AED" and a supplied
"aed" is uppercased, at amount 5.00. -/
theorem create_payment_request_currency_defaults_witness :
    (0 < 500 ∧ ("aed" : String).length = 3) ∧
    (validateCreatePaymentRequest 500 none none =
      .ok { amountCents := 500, currency := "AED",
            language := (none : Option String).getD "en" } ∧
    validateCreatePaymentRequest 500 (some "aed") none =
      .ok { amountCents := 500, currency := pyUpper "aed",
            language := (none : Option String).getD "en" } ∧
    (create_payment_record 1 500 "AED" "r1" 1 []).2.currency = "AED" ∧
    (create_payment_record 1 500 (pyUpper "aed") "r1" 1 []).2.currency =
      pyUpper "aed") :=
  ⟨⟨by decide, by decide⟩,
   create_payment_request_currency_defaults 500 none "aed" 1 "r1" 1 []
     (by decide) (by decide)⟩

/-- The fractional rendering is always exactly two decimal digits. -/
theorem pad2_two_decimal_digits :
    ∀ m, m < 100 → (pad2 m).length = 2 ∧
      (pad2 m).data.all (fun ch => ch.isDigit) = true := by
  decide

/-- C2: the signature is the base64 of the HMAC-SHA256 digest, keyed by the
API secret, of the UTF-8 bytes of the delimiter-free concatenation — in
fixed order — of public key, amount formatted with exactly two decimal
digits separated by '.', currency, merchant reference id, timestamp; and
the amount formatting splits as integer part, '.', and exactly two digits
(e.g. amount 10 renders as "10.00"). -/
theorem generate_signature_is_hmac_over_concatenation
    (pk : String) (aC : Nat) (cur ref pw ts : String) :
    generate_signature pk aC cur ref pw ts =
      base64Encode (hmacSha256 (utf8Bytes pw)
        (utf8Bytes (pk ++ format_amount_two_decimals aC ++ cur ++ ref ++ ts))) ∧
    format_amount_two_decimals aC =
      Nat.repr (aC / 100) ++ "." ++ pad2 (aC % 100) ∧
    (pad2 (aC % 100)).length = 2 ∧
    (pad2 (aC % 100)).data.all (fun ch => ch.isDigit) = true ∧
    format_amount_two_decimals 1000 = "10.00" := by
  have hlt : aC % 100 < 100 := Nat.mod_lt _ (by decide)
  exact ⟨rfl, rfl, (pad2_two_decimal_digits _ hlt).1,
    (pad2_two_decimal_digits _ hlt).2, by decide⟩

set_option maxRecDepth 40000

/-- Grounding of the hash embedding: the NIST SHA-256 test vector for
"abc". -/
theorem sha256_vector_abc :
    sha256 (utf8Bytes "abc") =
      [0xba, 0x78, 0x16, 0xbf, 0x8f, 0x01, 0xcf, 0xea,
       0x41, 0x41, 0x40, 0xde, 0x5d, 0xae, 0x22, 0x23,
       0xb0, 0x03, 0x61, 0xa3, 0x96, 0x17, 0x7a, 0x9c,
       0xb4, 0x10, 0xff, 0x61, 0xf2, 0x00, 0x15, 0xad] := by
  decide

/-- Grounding of the whole signature pipeline: this value equals the output
of the source's `_generate_signature("pk_test", 10.0, "AED", "ref-123",
"secret", "2024/01/02 03:04:05")` as computed by Python's `hmac`/`base64`
libraries. -/
theorem generate_signature_vector :
    generate_signature "pk_test" 1000 "AED" "ref-123" "secret"
      "2024/01/02 03:04:05" =
      "W73T5ew5cU7HthWpkhnZiafc9ErvKFvtXSeWWJoFgrc=" := by
  decide

end Geidea
